import Mathlib

/-!
Shallow embedding of the SaasAgent orchestration core
(backend/app/agents/agent_orchestrator.py and backend/app/agents/base_agent.py).

Modelling conventions:
- Python dicts become association lists (first binding wins on lookup;
  assignment replaces in place or appends, preserving insertion order).
- Python values stored in the workflow context become the inductive type Value.
- datetime timestamps become natural numbers supplied by the caller as
  explicit clock arguments (the clock is monotone across calls).
- float durations and metric ratios become rationals.
- An agent domain capability (BaseAgent.process_task of a subclass) is a pure
  function from the task payload to a result dict or an error message; by
  inspection of email_marketing_agent.py and logistics_agent.py, process_task
  reads only the task type and payload and writes no agent state, so a pure
  function is a faithful model of the step-execution path.
- Raising an exception becomes returning Except.error.
- Logging becomes a returned list of log lines where a claim mentions it.
-/

/-- A Python value stored in a workflow context or task payload. -/
inductive Value where
  | int : Int → Value
  | str : String → Value
  | bool : Bool → Value
deriving DecidableEq, Repr

/-- A Python dict with String keys, as an ordered association list. -/
abbrev Ctx := List (String × Value)

/-- Python dict lookup: d.get(k) / k in d. -/
def dictGet {α : Type} : List (String × α) → String → Option α
  | [], _ => none
  | (k', v) :: rest, k => if k' = k then some v else dictGet rest k

/-- Python dict assignment d[k] = v: replace in place, else append. -/
def dictInsert {α : Type} : List (String × α) → String → α → List (String × α)
  | [], k, v => [(k, v)]
  | (k', v') :: rest, k, v =>
      if k' = k then (k, v) :: rest else (k', v') :: dictInsert rest k v

/-- Python d.update(e): assign every binding of e into d, in order. -/
def dictUpdate {α : Type} (d e : List (String × α)) : List (String × α) :=
  e.foldl (fun acc kv => dictInsert acc kv.1 kv.2) d

/-- Python del d[k]. -/
def dictRemove {α : Type} : List (String × α) → String → List (String × α)
  | [], _ => []
  | (k', v') :: rest, k =>
      if k' = k then rest else (k', v') :: dictRemove rest k

/-- WorkflowStatus enum of agent_orchestrator.py. -/
inductive WorkflowStatus where
  | pending | running | completed | failed | paused | cancelled
deriving DecidableEq, Repr

/-- AgentStatus enum of base_agent.py. -/
inductive AgentStatus where
  | idle | running | completed | failed | paused
deriving DecidableEq, Repr

/-- WorkflowStep model of agent_orchestrator.py (lines 29-39).
The condition dict maps context keys to expected values. -/
structure WorkflowStep where
  id : String
  name : String
  agent_type : String
  input_mapping : List (String × String) := []
  output_mapping : List (String × String) := []
  conditions : Ctx := []
  retry_count : Nat := 0
  max_retries : Nat := 3
  timeout_seconds : Nat := 300
deriving DecidableEq, Repr

/-- WorkflowState model of agent_orchestrator.py (lines 42-55). -/
structure WorkflowState where
  workflow_id : String
  name : String
  status : WorkflowStatus := WorkflowStatus.pending
  current_step : Option String := none
  completed_steps : List String := []
  failed_steps : List String := []
  context : Ctx := []
  results : List (String × Ctx) := []
  created_at : Nat := 0
  started_at : Option Nat := none
  completed_at : Option Nat := none
  error : Option String := none
deriving DecidableEq, Repr

/-- AgentTask model of base_agent.py (lines 38-49). -/
structure AgentTask where
  id : String
  type : String
  priority : Int := 1
  payload : Ctx := []
  created_at : Nat := 0
  deadline : Option Nat := none
  dependencies : List String := []
  status : AgentStatus := AgentStatus.idle
  result : Option Ctx := none
  error : Option String := none
deriving DecidableEq, Repr

/-- AgentMemory model of base_agent.py (lines 52-57); messages are opaque,
modelled as strings. -/
structure AgentMemory where
  short_term : List String := []
  long_term : Ctx := []
  episodic : List Ctx := []
  semantic : Ctx := []
deriving DecidableEq, Repr

/-- The metrics dict set up in BaseAgent (lines 95-101). -/
structure AgentMetrics where
  tasks_completed : Nat := 0
  tasks_failed : Nat := 0
  total_execution_time : Rat := 0
  average_execution_time : Rat := 0
  success_rate : Rat := 0
deriving DecidableEq, Repr

/-- AgentState model of base_agent.py (lines 60-72); capability tags are
opaque strings. -/
structure AgentState where
  agent_id : String
  name : String
  status : AgentStatus := AgentStatus.idle
  capabilities : List String := []
  current_task : Option AgentTask := none
  task_queue : List AgentTask := []
  memory : AgentMemory := {}
  context : Ctx := []
  metrics : AgentMetrics := {}
  created_at : Nat := 0
  last_active : Nat := 0
deriving DecidableEq, Repr

/-- An agent domain capability: BaseAgent.process_task of a concrete agent,
as a pure function from the task payload to a result dict or an error. -/
abbrev Capability := Ctx → Except String Ctx

/-- The orchestrator fields that the modelled operations touch
(agent_orchestrator.py lines 61-66). Compiled workflows are kept as the
ordered list of their steps, executed as a linear chain; the capability of
the agent backing each step is supplied separately to the executor. -/
structure Orchestrator where
  agents : List (String × AgentState) := []
  workflows : List (String × List WorkflowStep) := []
  workflow_states : List (String × WorkflowState) := []
  running_workflows : List String := []
deriving DecidableEq, Repr

/-- AgentOrchestrator._check_conditions (lines 254-263): an empty condition
dict passes; otherwise every declared key must be present in the context and
exactly equal to its expected value. -/
def check_conditions (conditions : Ctx) (context : Ctx) : Bool :=
  match conditions with
  | [] => true
  | _ :: _ =>
      conditions.all fun kv =>
        match dictGet context kv.1 with
        | some v => decide (v = kv.2)
        | none => false

/-- AgentOrchestrator._prepare_input (lines 265-273): build the step input by
copying, for each mapping pair (output_key, context_key), the context value at
context_key when present; missing source keys are omitted. -/
def prepare_input (input_mapping : List (String × String)) (context : Ctx) : Ctx :=
  input_mapping.foldl
    (fun input_data kv =>
      match dictGet context kv.2 with
      | some v => dictInsert input_data kv.1 v
      | none => input_data)
    []

/-- AgentOrchestrator._process_output (lines 275-283): for each mapping pair
(result_key, context_key), copy the result value at result_key into the
output at context_key when present. -/
def process_output (output_mapping : List (String × String)) (result : Ctx) : Ctx :=
  output_mapping.foldl
    (fun output_data kv =>
      match dictGet result kv.1 with
      | some v => dictInsert output_data kv.2 v
      | none => output_data)
    []

/-- The step closure built by AgentOrchestrator._create_step_function
(lines 173-252). It records the step as current, gates on the condition dict,
builds the input, invokes the agent capability, and on success folds the
output mapping into the context, stores the result and appends the step to
completed_steps; on failure it increments the retry counter on the captured
step object and recurses while the counter stays within max_retries, after
which it appends the step to failed_steps, sets the run status to failed and
records the error. The Python closure mutates the captured WorkflowStep, so
the updated step is returned alongside the state. The third component is a
pure observation trace: the payloads passed to the capability, in invocation
order; it does not influence the state. -/
def step_attempt (cap : Capability) :
    Nat → WorkflowStep → WorkflowState → WorkflowState × WorkflowStep × List Ctx
  | fuel, step, state =>
    let state1 := { state with current_step := some step.id }
    if check_conditions step.conditions state1.context then
      let input_data := prepare_input step.input_mapping state1.context
      match cap input_data with
      | Except.ok result =>
          let output_data := process_output step.output_mapping result
          ({ state1 with
              context := dictUpdate state1.context output_data,
              results := dictInsert state1.results step.id result,
              completed_steps := state1.completed_steps ++ [step.id] },
            step, [input_data])
      | Except.error e =>
          match fuel with
          | fuel' + 1 =>
              let r := step_attempt cap fuel'
                { step with retry_count := step.retry_count + 1 } state1
              (r.1, r.2.1, input_data :: r.2.2)
          | 0 =>
              ({ state1 with
                  failed_steps := state1.failed_steps ++ [step.id],
                  status := WorkflowStatus.failed,
                  error := some e },
                { step with retry_count := step.retry_count + 1 }, [input_data])
    else
      ({ state1 with completed_steps := state1.completed_steps ++ [step.id] }, step, [])

/-- The step closure applied to a state. The Python recursion after a failed
attempt is guarded by the incremented counter staying within max_retries,
that is by retry_count + 1 <= max_retries before the increment; this holds
exactly when max_retries - retry_count is positive, and that difference
drops by one at each retry, so it is the structural recursion depth passed
to step_attempt. -/
def step_function (cap : Capability) (step : WorkflowStep) (state : WorkflowState) :
    WorkflowState × WorkflowStep × List Ctx :=
  step_attempt cap (step.max_retries - step.retry_count) step state

/-- One LangGraph run of a compiled linear chain (create_workflow wires the
steps with unconditional add_edge calls, entry at the first step and END
after the last, and _run_workflow awaits graph.ainvoke). A node closure never
raises, so after each node the run always advances along the static edge to
the next node. Returns the final state, the steps with their mutated retry
counters, and per step the observation trace of capability invocations. -/
def run_chain (caps : String → String → Capability) (steps : List WorkflowStep)
    (state : WorkflowState) :
    WorkflowState × List WorkflowStep × List (String × List Ctx) :=
  match steps with
  | [] => (state, [], [])
  | step :: rest =>
      let r := step_function (caps step.agent_type step.id) step state
      let r2 := run_chain caps rest r.1
      (r2.1, r.2.1 :: r2.2.1, (step.id, r.2.2) :: r2.2.2)

/-- AgentOrchestrator.execute_workflow (lines 301-364). Rejects an unknown
workflow id, then rejects an id whose run is already in flight, then resets
the reused run state (status running, start time stamped, context set to the
caller input, results, step lists and error cleared), runs the compiled
graph, and finally stamps status completed and the completion time on the
returned state. ainvoke is modelled as returning the final WorkflowState.
The step closures never raise, so the except branch of the Python code is
unreachable in this model; the finally block removes the id from
running_workflows again, leaving it unchanged overall. The mutated step
objects persist inside the compiled graph, so the stored workflow is updated
with them. -/
def execute_workflow (caps : String → String → Capability) (orch : Orchestrator)
    (workflow_id : String) (input_data : Ctx) (t_start t_end : Nat) :
    Except String (Orchestrator × WorkflowState × List (String × List Ctx)) :=
  match dictGet orch.workflows workflow_id with
  | none => Except.error ("工作流不存在: " ++ workflow_id)
  | some steps =>
      if workflow_id ∈ orch.running_workflows then
        Except.error ("工作流正在运行: " ++ workflow_id)
      else
        match dictGet orch.workflow_states workflow_id with
        | none => Except.error "KeyError"
        | some state =>
            let state1 := { state with
              status := WorkflowStatus.running,
              started_at := some t_start,
              context := input_data,
              results := [],
              completed_steps := [],
              failed_steps := [],
              error := none }
            let r := run_chain caps steps state1
            let final_state := { r.1 with
              status := WorkflowStatus.completed,
              completed_at := some t_end }
            Except.ok
              ({ orch with
                  workflows := dictInsert orch.workflows workflow_id r.2.1,
                  workflow_states :=
                    dictInsert orch.workflow_states workflow_id final_state },
                final_state, r.2.2)

/-- AgentOrchestrator.cancel_workflow (lines 380-393). If the id has no run
in flight it only logs a warning and returns; otherwise it cancels the
underlying task (a cooperative signal, not modelled further), marks the run
state cancelled, stamps the completion time and logs. The id is not removed
from running_workflows here (that happens in the finally block of
execute_workflow). The KeyError arm mirrors the dict access
workflow_states[workflow_id], unreachable while running ids always have a
state recorded by create_workflow. -/
def cancel_workflow (orch : Orchestrator) (workflow_id : String) (now : Nat) :
    Except String (Orchestrator × List String) :=
  if workflow_id ∈ orch.running_workflows then
    match dictGet orch.workflow_states workflow_id with
    | none => Except.error "KeyError"
    | some state =>
        Except.ok
          ({ orch with
              workflow_states := dictInsert orch.workflow_states workflow_id
                { state with
                    status := WorkflowStatus.cancelled,
                    completed_at := some now } },
            ["工作流已取消: " ++ workflow_id])
  else
    Except.ok (orch, ["工作流未在运行: " ++ workflow_id])

/-- AgentOrchestrator.remove_agent (lines 114-124). A missing id only logs a
warning and returns; an existing agent is stopped and deregistered. The
returned list holds the emitted log lines. -/
def remove_agent (orch : Orchestrator) (agent_id : String) :
    Orchestrator × List String :=
  match dictGet orch.agents agent_id with
  | none => (orch, ["Agent不存在: " ++ agent_id])
  | some _ =>
      ({ orch with agents := dictRemove orch.agents agent_id },
        ["Agent已移除: " ++ agent_id])

/-- Stable insertion of a task into a queue already sorted by descending
priority: the task goes after every earlier task of priority strictly above
its own and before the first task whose priority does not exceed it. -/
def insert_desc (t : AgentTask) : List AgentTask → List AgentTask
  | [] => [t]
  | u :: us => if u.priority > t.priority then u :: insert_desc t us else t :: u :: us

/-- A stable sort by descending priority, modelling the Python call
task_queue.sort(key=lambda t: t.priority, reverse=True): list.sort is
documented stable, and reverse=True keeps equal elements in original order. -/
def sort_by_priority_desc (l : List AgentTask) : List AgentTask :=
  l.foldr insert_desc []

/-- BaseAgent.add_task (lines 180-192): append the task, then re-sort the
queue by descending priority (stable on arrival order); returns at once. -/
def add_task (task_queue : List AgentTask) (task : AgentTask) : List AgentTask :=
  sort_by_priority_desc (task_queue ++ [task])

/-- BaseAgent._update_metrics (lines 254-268): bump the completed or failed
counter, accumulate the execution time, and when at least one task has run
recompute the average time and the success ratio. -/
def update_metrics (m : AgentMetrics) (success : Bool) (execution_time : Rat) :
    AgentMetrics :=
  let m1 := if success then { m with tasks_completed := m.tasks_completed + 1 }
            else { m with tasks_failed := m.tasks_failed + 1 }
  let m2 := { m1 with total_execution_time := m1.total_execution_time + execution_time }
  let total_tasks := m2.tasks_completed + m2.tasks_failed
  if total_tasks > 0 then
    { m2 with
        average_execution_time := m2.total_execution_time / (total_tasks : Rat),
        success_rate := (m2.tasks_completed : Rat) / (total_tasks : Rat) }
  else m2

/-- One pass of the BaseAgent._process_task_queue loop body for a nonempty
queue (lines 194-252): pop the head task, mark it running, invoke the
capability on its payload, mark the task completed with its result or failed
with its error, update the metrics with the measured duration, and in the
finally block clear current_task and stamp last_active. An empty queue only
sleeps. -/
def process_queue_once (cap : Capability) (agent : AgentState)
    (execution_time : Rat) (now : Nat) : AgentState × Option AgentTask :=
  match agent.task_queue with
  | [] => (agent, none)
  | task :: rest =>
      let task1 := { task with status := AgentStatus.running }
      match cap task1.payload with
      | Except.ok result =>
          let task2 := { task1 with
            status := AgentStatus.completed, result := some result }
          ({ agent with
              task_queue := rest,
              current_task := none,
              metrics := update_metrics agent.metrics true execution_time,
              last_active := now }, some task2)
      | Except.error e =>
          let task2 := { task1 with
            status := AgentStatus.failed, error := some e }
          ({ agent with
              task_queue := rest,
              current_task := none,
              metrics := update_metrics agent.metrics false execution_time,
              last_active := now }, some task2)

/-- The workflow step-execution path through an agent
(agent_orchestrator.py lines 203-211): an AgentTask tagged runId_stepId is
built with the prepared input as payload and every other field left at its
default, and the agent capability process_task is awaited directly on it —
the task is never put on the agent queue and no field of the agent state is
written on this path. Returns the untouched agent, the task as built, and
the capability outcome. -/
def step_invoke_agent (cap : Capability) (agent : AgentState)
    (workflow_id step_id step_name : String) (input_data : Ctx) :
    AgentState × AgentTask × Except String Ctx :=
  let task : AgentTask :=
    { id := workflow_id ++ "_" ++ step_id, type := step_name, payload := input_data }
  (agent, task, cap input_data)

/-- Any number of workflow step executions against the same backing agent,
each one going through the direct path of step_invoke_agent. -/
def step_invoke_many (cap : Capability) (agent : AgentState)
    (calls : List (String × String × String × Ctx)) : AgentState :=
  match calls with
  | [] => agent
  | c :: rest =>
      step_invoke_many cap (step_invoke_agent cap agent c.1 c.2.1 c.2.2.1 c.2.2.2).1 rest

/-- The short-term branch of BaseAgent.update_memory (lines 293-297): extend
the buffer with the new messages; if its length then exceeds 100, keep only
the most recent 50 entries. -/
def update_short_term (m : AgentMemory) (short_term : Option (List String)) :
    AgentMemory :=
  match short_term with
  | none => m
  | some msgs =>
      let st := m.short_term ++ msgs
      if st.length > 100 then { m with short_term := st.drop (st.length - 50) }
      else { m with short_term := st }

/-- The long-term branch of BaseAgent.update_memory (lines 299-300). -/
def update_long_term (m : AgentMemory) (long_term : Option Ctx) : AgentMemory :=
  match long_term with
  | none => m
  | some d => { m with long_term := dictUpdate m.long_term d }

/-- The episodic branch of BaseAgent.update_memory (lines 302-306): append
one record carrying a timestamp and the given entries. -/
def update_episodic (m : AgentMemory) (episodic : Option Ctx) (now : Nat) :
    AgentMemory :=
  match episodic with
  | none => m
  | some d => { m with episodic := m.episodic ++ [dictUpdate [("timestamp", Value.int now)] d] }

/-- The semantic branch of BaseAgent.update_memory (lines 308-309). -/
def update_semantic (m : AgentMemory) (semantic : Option Ctx) : AgentMemory :=
  match semantic with
  | none => m
  | some d => { m with semantic := dictUpdate m.semantic d }

/-- BaseAgent.update_memory (lines 285-309): the four optional branches
applied in source order. -/
def update_memory (m : AgentMemory) (short_term : Option (List String))
    (long_term episodic semantic : Option Ctx) (now : Nat) : AgentMemory :=
  update_semantic (update_episodic (update_long_term
    (update_short_term m short_term) long_term) episodic now) semantic

/-- One call to BaseAgent.update_memory with its optional arguments. -/
structure MemoryUpdate where
  short_term : Option (List String) := none
  long_term : Option Ctx := none
  episodic : Option Ctx := none
  semantic : Option Ctx := none
  now : Nat := 0
deriving Repr

/-- A sequence of update_memory calls applied in order. -/
def apply_memory_updates (m : AgentMemory) (us : List MemoryUpdate) : AgentMemory :=
  us.foldl (fun mem u =>
    update_memory mem u.short_term u.long_term u.episodic u.semantic u.now) m

/-- The memory of a freshly constructed BaseAgent: every store empty. -/
def initial_agent_memory : AgentMemory := {}

/-- The run state recorded by create_workflow (lines 161-164): only the id
and name are set, everything else at its default. -/
def initial_workflow_state (workflow_id name : String) : WorkflowState :=
  { workflow_id := workflow_id, name := name }

/-- Extract the per-step invocation traces of a successful run. -/
def exec_trace
    (r : Except String (Orchestrator × WorkflowState × List (String × List Ctx))) :
    Option (List (String × List Ctx)) :=
  match r with
  | Except.ok x => some x.2.2
  | Except.error _ => none

/-- Extract, per step, how many times its capability was invoked. -/
def exec_trace_lengths
    (r : Except String (Orchestrator × WorkflowState × List (String × List Ctx))) :
    Option (List (String × Nat)) :=
  (exec_trace r).map (fun t => t.map fun p => (p.1, p.2.length))

/-- Extract the final run state of a successful run. -/
def exec_state
    (r : Except String (Orchestrator × WorkflowState × List (String × List Ctx))) :
    Option WorkflowState :=
  match r with
  | Except.ok x => some x.2.1
  | Except.error _ => none

/-- Extract the orchestrator left behind by a successful run. -/
def exec_orch
    (r : Except String (Orchestrator × WorkflowState × List (String × List Ctx))) :
    Option Orchestrator :=
  match r with
  | Except.ok x => some x.1
  | Except.error _ => none

/-- Step A of the two-step demo graph: no conditions, no mappings, a retry
budget of two. -/
def stepA1 : WorkflowStep :=
  { id := "A", name := "stepA", agent_type := "worker", max_retries := 2 }

/-- Step B of the two-step demo graph: unconditioned successor of A. -/
def stepB1 : WorkflowStep :=
  { id := "B", name := "stepB", agent_type := "worker", max_retries := 2 }

/-- Capabilities for the two-step demo: the agent behind A fails every
attempt, the agent behind B succeeds. -/
def ex1Caps : String → String → Capability :=
  fun _ step_id =>
    if step_id = "A" then fun _ => Except.error "boom"
    else fun _ => Except.ok [("out", Value.int 7)]

/-- Orchestrator holding the compiled two-step demo workflow wf = A then B. -/
def ex1Orch : Orchestrator :=
  { workflows := [("wf", [stepA1, stepB1])],
    workflow_states := [("wf", initial_workflow_state "wf" "demo")] }

/-- Single step with an input mapping and a retry budget of two, for the
retry-count demo. -/
def stepA2 : WorkflowStep :=
  { id := "A", name := "stepA", agent_type := "worker",
    input_mapping := [("in", "x")], max_retries := 2 }

/-- Capabilities for the retry-count demo: every attempt fails. -/
def ex2Caps : String → String → Capability :=
  fun _ _ _ => Except.error "boom"

/-- Orchestrator holding the compiled single-step demo workflow wf2. -/
def ex2Orch : Orchestrator :=
  { workflows := [("wf2", [stepA2])],
    workflow_states := [("wf2", initial_workflow_state "wf2" "demo2")] }

/-- A run state as it looks while a run of workflow w is in flight. -/
def wState : WorkflowState :=
  { workflow_id := "w", name := "wdemo",
    status := WorkflowStatus.running,
    context := [("x", Value.int 3)],
    started_at := some 5 }

/-- A registered idle agent used by the witness orchestrator. -/
def wAgent : AgentState := { agent_id := "a1", name := "agent one" }

/-- Orchestrator with one registered agent and one in-flight run of w. -/
def wOrch : Orchestrator :=
  { agents := [("a1", wAgent)],
    workflows := [("w", [stepA1])],
    workflow_states := [("w", wState)],
    running_workflows := ["w"] }

/-- A memory whose short-term buffer already holds 101 entries. -/
def memOverflow : AgentMemory := { short_term := List.replicate 101 "m" }

/-- A demo sequence of memory updates: three batches of forty messages. -/
def demoUpdates : List MemoryUpdate :=
  [ { short_term := some (List.replicate 40 "a") },
    { short_term := some (List.replicate 40 "b") },
    { short_term := some (List.replicate 40 "c") } ]

/-- High-priority demo task. -/
def taskHi : AgentTask := { id := "t1", type := "work", priority := 5 }

/-- Low-priority demo task. -/
def taskLo : AgentTask := { id := "t2", type := "work", priority := 2 }

/-- First-arriving demo task of priority three. -/
def taskEq1 : AgentTask := { id := "e1", type := "work", priority := 3 }

/-- Second-arriving demo task of priority three. -/
def taskEq2 : AgentTask := { id := "e2", type := "work", priority := 3 }

/-- A capability that succeeds with an empty result, for queue demos. -/
def okCap : Capability := fun _ => Except.ok []

/-- Demo step with an unsatisfiable condition against wState. -/
def condStep : WorkflowStep :=
  { id := "C", name := "stepC", agent_type := "worker",
    conditions := [("flag", Value.bool true)] }

/-- Demo step with an empty condition set. -/
def freeStep : WorkflowStep :=
  { id := "D", name := "stepD", agent_type := "worker" }

/-- Claim C1: on the two-step demo workflow where the capability behind step
A fails on every attempt with maxRetries = 2, the executor does append A to
failed-steps, records the error, and invokes the capability of A exactly
three times — but it does not stop advancing the graph: the capability of
the successor B is invoked once (B even completes), and execute_workflow
then overwrites the final run status to completed; the claimed behaviour
that no successor capability is ever invoked and the run ends failed does
not hold on the code. -/
theorem c1_step_failure_graph_advances :
    exec_trace_lengths (execute_workflow ex1Caps ex1Orch "wf" [] 0 1)
      = some [("A", 3), ("B", 1)] ∧
    (exec_state (execute_workflow ex1Caps ex1Orch "wf" [] 0 1)).map
        (fun s => (s.failed_steps, s.completed_steps, s.error, s.status))
      = some (["A"], ["B"], some "boom", WorkflowStatus.completed) := by
  decide

/-- Claim C2: the retry counter of a step lives on the step object captured
inside the compiled graph and is never reset between runs. In the first run
of the single-step demo workflow (maxRetries = 2, capability failing every
attempt) the capability is invoked exactly three times, each attempt with
the identical input rebuilt from the unchanged context; but in a second run
of the same workflow the counter is already exhausted and the capability is
invoked exactly once, not maxRetries + 1 times, refuting the claim for every
run after the first. -/
theorem c2_retry_counter_persists :
    exec_trace (execute_workflow ex2Caps ex2Orch "wf2" [("x", Value.int 3)] 0 1)
      = some [("A", [[("in", Value.int 3)], [("in", Value.int 3)], [("in", Value.int 3)]])] ∧
    ((exec_orch (execute_workflow ex2Caps ex2Orch "wf2" [("x", Value.int 3)] 0 1)).bind
        (fun o => exec_trace_lengths (execute_workflow ex2Caps o "wf2" [("x", Value.int 3)] 2 3)))
      = some [("A", 1)] := by
  decide

/-- Claim C5: calling execute_workflow on a workflow id that already has a
run in flight fails with the conflict error before any state mutation: the
result is the error alone, so the in-flight run state, the stored workflows
and every other orchestrator field are untouched. -/
theorem c5_execute_conflict (caps : String → String → Capability)
    (orch : Orchestrator) (workflow_id : String) (input_data : Ctx)
    (t_start t_end : Nat) (steps : List WorkflowStep)
    (hw : dictGet orch.workflows workflow_id = some steps)
    (hr : workflow_id ∈ orch.running_workflows) :
    execute_workflow caps orch workflow_id input_data t_start t_end
      = Except.error ("工作流正在运行: " ++ workflow_id) := by
  unfold execute_workflow
  rw [hw]
  simp [hr]

/-- Witness for c5_execute_conflict on the concrete in-flight orchestrator
wOrch. -/
theorem c5_execute_conflict_witness :
    execute_workflow ex1Caps wOrch "w" [] 7 8
      = Except.error ("工作流正在运行: " ++ "w") :=
  c5_execute_conflict ex1Caps wOrch "w" [] 7 8 [stepA1] (by decide) (by decide)

/-- Claim C6: cancelling a workflow with an in-flight run returns without
error, immediately marks its run state cancelled and stamps the completion
timestamp with the current clock, which is at least the recorded start
timestamp; nothing else of the orchestrator changes, whatever progress the
run had made. -/
theorem c6_cancel_marks_cancelled (orch : Orchestrator) (workflow_id : String)
    (now t0 : Nat) (st : WorkflowState)
    (hr : workflow_id ∈ orch.running_workflows)
    (hst : dictGet orch.workflow_states workflow_id = some st)
    (hstart : st.started_at = some t0)
    (hmono : t0 ≤ now) :
    cancel_workflow orch workflow_id now
      = Except.ok
          ({ orch with
              workflow_states := dictInsert orch.workflow_states workflow_id
                { st with
                    status := WorkflowStatus.cancelled,
                    completed_at := some now } },
            ["工作流已取消: " ++ workflow_id]) ∧
    st.started_at = some t0 ∧ t0 ≤ now := by
  refine ⟨?_, hstart, hmono⟩
  unfold cancel_workflow
  rw [hst]
  simp [hr]

/-- Witness for c6_cancel_marks_cancelled: cancelling the in-flight run of w
in wOrch at time 9, started at time 5. -/
theorem c6_cancel_marks_cancelled_witness :
    cancel_workflow wOrch "w" 9
      = Except.ok
          ({ wOrch with
              workflow_states := dictInsert wOrch.workflow_states "w"
                { wState with
                    status := WorkflowStatus.cancelled,
                    completed_at := some 9 } },
            ["工作流已取消: " ++ "w"]) ∧
    wState.started_at = some 5 ∧ 5 ≤ 9 :=
  c6_cancel_marks_cancelled wOrch "w" 9 5 wState (by decide) (by decide)
    (by decide) (by decide)

/-- Claim C7: removing an agent id that is not in the registry is a no-op:
the orchestrator (registry and every registered agent state) is returned
unchanged, no error is raised, and only a warning line is logged. -/
theorem c7_remove_missing_agent_noop (orch : Orchestrator) (agent_id : String)
    (h : dictGet orch.agents agent_id = none) :
    remove_agent orch agent_id = (orch, ["Agent不存在: " ++ agent_id]) := by
  unfold remove_agent
  rw [h]

/-- Witness for c7_remove_missing_agent_noop: removing the unregistered id
ghost from wOrch. -/
theorem c7_remove_missing_agent_noop_witness :
    remove_agent wOrch "ghost" = (wOrch, ["Agent不存在: " ++ "ghost"]) :=
  c7_remove_missing_agent_noop wOrch "ghost" (by decide)

/-- Claim C10: cancelling a workflow id with no run in flight (including an
unknown id) returns without error and leaves the orchestrator, and so every
run state in it, unchanged; only a warning line is logged. -/
theorem c10_cancel_not_running_noop (orch : Orchestrator) (workflow_id : String)
    (now : Nat)
    (h : workflow_id ∉ orch.running_workflows) :
    cancel_workflow orch workflow_id now
      = Except.ok (orch, ["工作流未在运行: " ++ workflow_id]) := by
  unfold cancel_workflow
  rw [if_neg h]

/-- Witness for c10_cancel_not_running_noop: cancelling the id other, which
has no run in flight in wOrch. -/
theorem c10_cancel_not_running_noop_witness :
    cancel_workflow wOrch "other" 9
      = Except.ok (wOrch, ["工作流未在运行: " ++ "other"]) :=
  c10_cancel_not_running_noop wOrch "other" 9 (by decide)

/-- The condition check passes exactly when every declared key is present in
the context with exactly the expected value. -/
theorem check_conditions_iff (conditions context : Ctx) :
    check_conditions conditions context = true ↔
      ∀ kv ∈ conditions, dictGet context kv.1 = some kv.2 := by
  cases conditions with
  | nil => simp [check_conditions]
  | cons c cs =>
      simp only [check_conditions, List.all_eq_true]
      constructor
      · intro h kv hm
        have hk := h kv hm
        cases hg : dictGet context kv.1 with
        | none => rw [hg] at hk; simp at hk
        | some v =>
            rw [hg] at hk
            simp at hk
            rw [hk]
      · intro h kv hm
        rw [h kv hm]
        simp

/-- A step whose condition check fails is skipped at any retry depth: it is
appended to completed-steps, the capability is never invoked, and context,
results and the step object are untouched. -/
theorem step_attempt_skip (cap : Capability) (fuel : Nat) (step : WorkflowStep)
    (state : WorkflowState)
    (h : check_conditions step.conditions state.context = false) :
    step_attempt cap fuel step state =
      ({ state with
          current_step := some step.id,
          completed_steps := state.completed_steps ++ [step.id] },
        step, ([] : List Ctx)) := by
  rw [step_attempt]
  simp [h]

/-- step_function version of step_attempt_skip. -/
theorem step_function_skip (cap : Capability) (step : WorkflowStep)
    (state : WorkflowState)
    (h : check_conditions step.conditions state.context = false) :
    step_function cap step state =
      ({ state with
          current_step := some step.id,
          completed_steps := state.completed_steps ++ [step.id] },
        step, ([] : List Ctx)) :=
  step_attempt_skip cap (step.max_retries - step.retry_count) step state h

/-- A step whose condition check passes invokes its capability at least
once, whatever the capability returns and whatever the retry depth. -/
theorem step_attempt_trace_pos (cap : Capability) (fuel : Nat)
    (step : WorkflowStep) (state : WorkflowState)
    (h : check_conditions step.conditions state.context = true) :
    1 ≤ (step_attempt cap fuel step state).2.2.length := by
  rw [step_attempt]
  simp only [h, if_true]
  cases hc : cap (prepare_input step.input_mapping state.context) with
  | ok result => simp [hc]
  | error e =>
      cases fuel with
      | zero => simp [hc]
      | succ fuel' => simp [hc]

/-- step_function version of step_attempt_trace_pos. -/
theorem step_function_trace_pos (cap : Capability) (step : WorkflowStep)
    (state : WorkflowState)
    (h : check_conditions step.conditions state.context = true) :
    1 ≤ (step_function cap step state).2.2.length :=
  step_attempt_trace_pos cap (step.max_retries - step.retry_count) step state h

/-- Claim C3: a step with a condition entry whose key is missing from the
run context or bound to a different value is skipped: the step id is still
appended to completed-steps, the capability is never invoked (empty trace),
and the context, the result store, the status and the step object are
untouched; a step with an empty condition set always passes the gate and
proceeds to invoke its capability at least once. -/
theorem c3_condition_gate (cap : Capability) (step : WorkflowStep)
    (state : WorkflowState) :
    ((∃ kv, kv ∈ step.conditions ∧ dictGet state.context kv.1 ≠ some kv.2) →
        step_function cap step state =
          ({ state with
              current_step := some step.id,
              completed_steps := state.completed_steps ++ [step.id] },
            step, ([] : List Ctx))) ∧
    (step.conditions = [] →
        check_conditions step.conditions state.context = true ∧
        1 ≤ (step_function cap step state).2.2.length) := by
  constructor
  · rintro ⟨kv, hm, hne⟩
    have hfalse : check_conditions step.conditions state.context = false := by
      cases h2 : check_conditions step.conditions state.context with
      | false => rfl
      | true => exact absurd ((check_conditions_iff _ _).1 h2 kv hm) hne
    exact step_function_skip cap step state hfalse
  · intro hnil
    have ht : check_conditions step.conditions state.context = true := by
      rw [hnil]; rfl
    exact ⟨ht, step_function_trace_pos cap step state ht⟩

/-- Witness for c3_condition_gate: condStep requires flag = true, absent
from the context of wState, so it is skipped with an empty trace; freeStep
has no conditions and invokes its capability. -/
theorem c3_condition_gate_witness :
    (step_function okCap condStep wState =
      ({ wState with
          current_step := some condStep.id,
          completed_steps := wState.completed_steps ++ [condStep.id] },
        condStep, ([] : List Ctx))) ∧
    (check_conditions freeStep.conditions wState.context = true ∧
      1 ≤ (step_function okCap freeStep wState).2.2.length) :=
  ⟨(c3_condition_gate okCap condStep wState).1
      ⟨("flag", Value.bool true), by decide, by decide⟩,
    (c3_condition_gate okCap freeStep wState).2 rfl⟩

/-- The worker loop executes the head of the queue: whatever the capability
returns, the task reported as processed is the first queued task. -/
theorem process_queue_once_head_id (cap : Capability) (agent : AgentState)
    (t : AgentTask) (rest : List AgentTask) (execution_time : Rat) (now : Nat)
    (hq : agent.task_queue = t :: rest) :
    (process_queue_once cap agent execution_time now).2.map AgentTask.id
      = some t.id := by
  unfold process_queue_once
  rw [hq]
  cases hc : cap t.payload with
  | ok result => simp [hc]
  | error e => simp [hc]

/-- Claim C4: two tasks submitted to an idle agent queue execute in
priority order whatever the submission order, and equal priorities keep
arrival order: the task reported processed by the next pass of the worker
loop is the higher-priority one, or the first-arrived one on a tie. -/
theorem c4_priority_order (cap : Capability) (agent : AgentState)
    (a b : AgentTask) (execution_time : Rat) (now : Nat)
    (hidle : agent.task_queue = []) :
    (a.priority > b.priority →
      ((process_queue_once cap
          { agent with task_queue := add_task (add_task agent.task_queue a) b }
          execution_time now).2.map AgentTask.id = some a.id ∧
       (process_queue_once cap
          { agent with task_queue := add_task (add_task agent.task_queue b) a }
          execution_time now).2.map AgentTask.id = some a.id)) ∧
    (a.priority = b.priority →
      (process_queue_once cap
          { agent with task_queue := add_task (add_task agent.task_queue a) b }
          execution_time now).2.map AgentTask.id = some a.id) := by
  constructor
  · intro h
    have hnb : ¬ (b.priority > a.priority) := by omega
    have hab : add_task (add_task agent.task_queue a) b = [a, b] := by
      rw [hidle]
      simp [add_task, sort_by_priority_desc, insert_desc, hnb]
    have hba : add_task (add_task agent.task_queue b) a = [a, b] := by
      rw [hidle]
      simp [add_task, sort_by_priority_desc, insert_desc, h]
    constructor
    · exact process_queue_once_head_id cap _ a [b] execution_time now (by simp [hab])
    · exact process_queue_once_head_id cap _ a [b] execution_time now (by simp [hba])
  · intro h
    have hnb : ¬ (b.priority > a.priority) := by omega
    have hab : add_task (add_task agent.task_queue a) b = [a, b] := by
      rw [hidle]
      simp [add_task, sort_by_priority_desc, insert_desc, hnb]
    exact process_queue_once_head_id cap _ a [b] execution_time now (by simp [hab])

/-- Witness for c4_priority_order: priorities five before two in either
submission order, and a tie of threes keeping arrival order. -/
theorem c4_priority_order_witness :
    ((process_queue_once okCap
        { wAgent with task_queue := add_task (add_task wAgent.task_queue taskHi) taskLo }
        1 9).2.map AgentTask.id = some taskHi.id ∧
      (process_queue_once okCap
        { wAgent with task_queue := add_task (add_task wAgent.task_queue taskLo) taskHi }
        1 9).2.map AgentTask.id = some taskHi.id) ∧
    (process_queue_once okCap
        { wAgent with task_queue := add_task (add_task wAgent.task_queue taskEq1) taskEq2 }
        1 9).2.map AgentTask.id = some taskEq1.id :=
  ⟨(c4_priority_order okCap wAgent taskHi taskLo 1 9 rfl).1 (by decide),
    (c4_priority_order okCap wAgent taskEq1 taskEq2 1 9 rfl).2 (by decide)⟩

/-- The short-term branch of update_memory keeps the buffer within one
hundred entries whenever it was within bound before. -/
theorem update_short_term_le (m : AgentMemory) (st : Option (List String))
    (h : m.short_term.length ≤ 100) :
    (update_short_term m st).short_term.length ≤ 100 := by
  cases st with
  | none => simpa [update_short_term] using h
  | some msgs =>
      simp only [update_short_term]
      by_cases hlen : (m.short_term ++ msgs).length > 100
      · rw [if_pos hlen]
        simp only [List.length_drop]
        omega
      · rw [if_neg hlen]
        simp only []
        omega

/-- The long-term, episodic and semantic branches of update_memory never
touch the short-term buffer. -/
theorem update_rest_short_term (m : AgentMemory) (lt ep sem : Option Ctx)
    (now : Nat) :
    (update_semantic (update_episodic (update_long_term m lt) ep now)
        sem).short_term = m.short_term := by
  cases lt <;> cases ep <;> cases sem <;> rfl

/-- Starting within bound, any sequence of memory updates keeps the
short-term buffer within one hundred entries. -/
theorem apply_memory_updates_le (us : List MemoryUpdate) :
    ∀ m : AgentMemory, m.short_term.length ≤ 100 →
      (apply_memory_updates m us).short_term.length ≤ 100 := by
  induction us with
  | nil => intro m h; exact h
  | cons u rest ih =>
      intro m h
      have hstep : apply_memory_updates m (u :: rest)
          = apply_memory_updates
              (update_memory m u.short_term u.long_term u.episodic u.semantic u.now)
              rest := rfl
      rw [hstep]
      refine ih _ ?_
      rw [update_memory, update_rest_short_term]
      exact update_short_term_le m u.short_term h

/-- Claim C8: starting from the fresh agent memory, after every update in
any sequence of memory updates the short-term buffer holds at most one
hundred entries; and whenever a single update pushes the appended buffer
above one hundred entries it is truncated to exactly the most recent fifty
entries. -/
theorem c8_short_term_bound :
    (∀ us : List MemoryUpdate,
      (apply_memory_updates initial_agent_memory us).short_term.length ≤ 100) ∧
    (∀ (m : AgentMemory) (msgs : List String) (lt ep sem : Option Ctx) (now : Nat),
      100 < m.short_term.length + msgs.length →
        (update_memory m (some msgs) lt ep sem now).short_term
            = (m.short_term ++ msgs).drop (m.short_term.length + msgs.length - 50) ∧
        (update_memory m (some msgs) lt ep sem now).short_term.length = 50) := by
  constructor
  · intro us
    exact apply_memory_updates_le us initial_agent_memory (by decide)
  · intro m msgs lt ep sem now h
    rw [update_memory, update_rest_short_term]
    have hlen : (m.short_term ++ msgs).length > 100 := by
      simp only [List.length_append]
      omega
    simp only [update_short_term]
    rw [if_pos hlen]
    constructor
    · simp only [List.length_append]
    · simp only [List.length_drop, List.length_append]
      omega

/-- Witness for c8_short_term_bound: three batches of forty messages stay
within bound, and updating a buffer of one hundred and one entries with one
more message truncates it to fifty. -/
theorem c8_short_term_bound_witness :
    (apply_memory_updates initial_agent_memory demoUpdates).short_term.length ≤ 100 ∧
    (update_memory memOverflow (some ["x"]) none none none 0).short_term.length = 50 :=
  ⟨c8_short_term_bound.1 demoUpdates,
    (c8_short_term_bound.2 memOverflow ["x"] none none none 0 (by decide)).2⟩

/-- Claim C9: the workflow step path calls the agent capability directly
and never goes through the agent queue: after any number of step
executions the whole agent state — including task_queue, current_task and
metrics — is exactly as before, and the task built for the call keeps its
defaults: status idle, no result, no error, never updated to a terminal
value on this path. -/
theorem c9_step_path_frame (cap : Capability) (agent : AgentState)
    (calls : List (String × String × String × Ctx)) :
    step_invoke_many cap agent calls = agent ∧
    ∀ workflow_id step_id step_name input_data,
      (step_invoke_agent cap agent workflow_id step_id step_name input_data).1
          = agent ∧
      (step_invoke_agent cap agent workflow_id step_id step_name input_data).2.1.status
          = AgentStatus.idle ∧
      (step_invoke_agent cap agent workflow_id step_id step_name input_data).2.1.result
          = none ∧
      (step_invoke_agent cap agent workflow_id step_id step_name input_data).2.1.error
          = none := by
  refine ⟨?_, fun w s n i => ⟨rfl, rfl, rfl, rfl⟩⟩
  induction calls with
  | nil => rfl
  | cons c rest ih => exact ih
